import Mathlib

/-!
Verification of the spot_ros2 time-synchronized telemetry aggregation subsystem.

This development shallowly embeds:
* the field-copy conversion functions of
  spot_driver_cpp/src/conversions/common_conversions.cpp,
* the snapshot assembler DefaultRobotStateClient::getRobotState of
  spot_driver_cpp/src/api/default_robot_state_client.cpp,
* the joint-name maps and reordering code of
  spot_ros2_control/hardware/include/spot_ros2_control/spot_joint_map.hpp.

C++ machine integers are modelled as Int/Nat with explicit wrap-around
(mod 2^32) where narrowing conversions occur.  C++ double fields that are
only ever copied (never computed with) are modelled over an arbitrary value
type, so the copy theorems hold for any representation of the payload.
The per-category state translators (GetBatteryStates and friends, defined in
robot_state conversion sources that are not part of this tree) are modelled
from the spec where noted.
-/

namespace SpotRos2

/-! ## Machine-integer narrowing conversions -/

/-- Wrap an integer into the int32 value range, as the C++ narrowing
conversions int64 -> int32 and uint32 -> int32 do (wrap-around). -/
def toInt32 (n : Int) : Int := (n + 2 ^ 31) % 2 ^ 32 - 2 ^ 31

/-- Wrap an integer into the uint32 value range, as the C++ narrowing
conversion int32 -> uint32 does (mod 2^32). -/
def toUInt32n (i : Int) : Nat := (i % 2 ^ 32).toNat

/-! ## ROS and protobuf message types used by common_conversions.cpp -/

/-- builtin_interfaces::msg::Time: sec is an int32, nanosec a uint32. -/
structure BuiltinTime where
  sec : Int
  nanosec : Nat
  deriving Repr, DecidableEq

/-- The int32/uint32 range invariants of a well-formed ROS Time message. -/
def BuiltinTime.valid (t : BuiltinTime) : Prop :=
  -2 ^ 31 ≤ t.sec ∧ t.sec < 2 ^ 31 ∧ t.nanosec < 2 ^ 32

instance (t : BuiltinTime) : Decidable t.valid := by
  unfold BuiltinTime.valid; infer_instance

/-- google::protobuf::Timestamp: seconds is an int64, nanos an int32. -/
structure ProtoTimestamp where
  seconds : Int
  nanos : Int
  deriving Repr, DecidableEq

/-- The default (absent-field) protobuf Timestamp. -/
def protoTimestampZero : ProtoTimestamp := ⟨0, 0⟩

/-- geometry_msgs::msg::Quaternion, generic over the double payload type. -/
structure GeomQuaternion (α : Type) where
  x : α
  y : α
  z : α
  w : α
  deriving Repr, DecidableEq

/-- bosdyn::api::Quaternion, generic over the double payload type. -/
structure ProtoQuaternion (α : Type) where
  x : α
  y : α
  z : α
  w : α
  deriving Repr, DecidableEq

/-- geometry_msgs::msg::Vector3, generic over the double payload type. -/
structure GeomVector3 (α : Type) where
  x : α
  y : α
  z : α
  deriving Repr, DecidableEq

/-- geometry_msgs::msg::Point, generic over the double payload type. -/
structure GeomPoint (α : Type) where
  x : α
  y : α
  z : α
  deriving Repr, DecidableEq

/-- bosdyn::api::Vec3, generic over the double payload type. -/
structure ProtoVec3 (α : Type) where
  x : α
  y : α
  z : α
  deriving Repr, DecidableEq

/-- geometry_msgs::msg::Pose. -/
structure GeomPose (α : Type) where
  position : GeomPoint α
  orientation : GeomQuaternion α
  deriving Repr, DecidableEq

/-- bosdyn::api::SE3Pose. -/
structure ProtoSE3Pose (α : Type) where
  position : ProtoVec3 α
  rotation : ProtoQuaternion α
  deriving Repr, DecidableEq

/-! ## ROS-to-protobuf conversions (common_conversions.cpp, lines 10-74) -/

/-- convertBuiltinInterfacesTimeToProto: proto.set_seconds(ros.sec) widens
int32 to int64 exactly; proto.set_nanos(ros.nanosec) narrows uint32 to
int32 with wrap-around. -/
def convertBuiltinInterfacesTimeToProto (ros : BuiltinTime) : ProtoTimestamp :=
  { seconds := ros.sec, nanos := toInt32 ros.nanosec }

/-- convertGeometryMsgsVector3ToProto: copies x, y, z field for field. -/
def convertGeometryMsgsVector3ToProto (ros : GeomVector3 α) : ProtoVec3 α :=
  { x := ros.x, y := ros.y, z := ros.z }

/-- convertGeometryMsgsPointToProto: copies x, y, z field for field. -/
def convertGeometryMsgsPointToProto (ros : GeomPoint α) : ProtoVec3 α :=
  { x := ros.x, y := ros.y, z := ros.z }

/-- convertGeometryMsgsQuaternionToProto: copies w, x, y, z field for field. -/
def convertGeometryMsgsQuaternionToProto (ros : GeomQuaternion α) : ProtoQuaternion α :=
  { w := ros.w, x := ros.x, y := ros.y, z := ros.z }

/-- convertGeometryMsgsPoseToProto: converts position and orientation parts. -/
def convertGeometryMsgsPoseToProto (ros : GeomPose α) : ProtoSE3Pose α :=
  { position := convertGeometryMsgsPointToProto ros.position,
    rotation := convertGeometryMsgsQuaternionToProto ros.orientation }

/-! ## Protobuf-to-ROS conversions (common_conversions.cpp, lines 79-140) -/

/-- convertProtoToBuiltinInterfacesTime: ros.sec = proto.seconds() narrows
int64 to int32; ros.nanosec = proto.nanos() converts int32 to uint32. -/
def convertProtoToBuiltinInterfacesTime (proto : ProtoTimestamp) : BuiltinTime :=
  { sec := toInt32 proto.seconds, nanosec := toUInt32n proto.nanos }

/-- convertProtoToGeometryMsgsVector3 (Vector3 overload). -/
def convertProtoToGeometryMsgsVector3 (proto : ProtoVec3 α) : GeomVector3 α :=
  { x := proto.x, y := proto.y, z := proto.z }

/-- convertProtoToGeometryMsgsVector3 (Point overload). -/
def convertProtoToGeometryMsgsPoint (proto : ProtoVec3 α) : GeomPoint α :=
  { x := proto.x, y := proto.y, z := proto.z }

/-- convertProtoToGeometryMsgsQuaternion: copies w, x, y, z field for field. -/
def convertProtoToGeometryMsgsQuaternion (proto : ProtoQuaternion α) : GeomQuaternion α :=
  { w := proto.w, x := proto.x, y := proto.y, z := proto.z }

/-- convertProtoToGeometryMsgsPose: converts position and rotation parts. -/
def convertProtoToGeometryMsgsPose (proto : ProtoSE3Pose α) : GeomPose α :=
  { position := convertProtoToGeometryMsgsPoint proto.position,
    orientation := convertProtoToGeometryMsgsQuaternion proto.rotation }

/-! ## Request/response header conversions (common_conversions.cpp) -/

/-- bosdyn::api::RequestHeader: request_timestamp is an optional message
field (has_request_timestamp / request_timestamp accessor pair); the
accessor yields the default instance when the field is absent. -/
structure ProtoRequestHeader where
  requestTimestamp : Option ProtoTimestamp
  clientName : String
  disableRpcLogging : Bool
  deriving Repr, DecidableEq

/-- bosdyn_msgs::msg::RequestHeader. -/
structure RequestHeaderMsg where
  request_timestamp : BuiltinTime
  request_timestamp_is_set : Bool
  client_name : String
  disable_rpc_logging : Bool
  deriving Repr, DecidableEq

/-- bosdyn::api::CommonError. -/
structure ProtoCommonError where
  code : Int
  message : String
  deriving Repr, DecidableEq

/-- The default (absent-field) protobuf CommonError. -/
def protoCommonErrorZero : ProtoCommonError := ⟨0, ""⟩

/-- bosdyn_msgs::msg::CommonError (code.value plus message). -/
structure CommonErrorMsg where
  code : Int
  message : String
  deriving Repr, DecidableEq

/-- bosdyn::api::ResponseHeader with its four optional message fields. -/
structure ProtoResponseHeader where
  requestHeader : Option ProtoRequestHeader
  requestReceivedTimestamp : Option ProtoTimestamp
  responseTimestamp : Option ProtoTimestamp
  error : Option ProtoCommonError
  deriving Repr, DecidableEq

/-- bosdyn_msgs::msg::ResponseHeader. -/
structure ResponseHeaderMsg where
  request_header : RequestHeaderMsg
  request_header_is_set : Bool
  request_received_timestamp : BuiltinTime
  request_received_timestamp_is_set : Bool
  response_timestamp : BuiltinTime
  response_timestamp_is_set : Bool
  error : CommonErrorMsg
  error_is_set : Bool
  deriving Repr, DecidableEq

/-- The default (absent-field) protobuf RequestHeader instance. -/
def protoRequestHeaderZero : ProtoRequestHeader := ⟨none, "", false⟩

/-- convertBosdynMsgsRequestHeaderToProto (lines 16-23): copies the
timestamp only when the is-set flag is true, then copies client_name and
disable_rpc_logging unconditionally. -/
def convertBosdynMsgsRequestHeaderToProto (ros : RequestHeaderMsg) : ProtoRequestHeader :=
  { requestTimestamp :=
      if ros.request_timestamp_is_set then
        some (convertBuiltinInterfacesTimeToProto ros.request_timestamp)
      else none,
    clientName := ros.client_name,
    disableRpcLogging := ros.disable_rpc_logging }

/-- convertProtoToBosdynMsgsRequestHeader (lines 79-85): copies the
timestamp accessor value unconditionally and mirrors the has_ bit into the
is-set flag. -/
def convertProtoToBosdynMsgsRequestHeader (proto : ProtoRequestHeader) : RequestHeaderMsg :=
  { request_timestamp :=
      convertProtoToBuiltinInterfacesTime (proto.requestTimestamp.getD protoTimestampZero),
    request_timestamp_is_set := proto.requestTimestamp.isSome,
    client_name := proto.clientName,
    disable_rpc_logging := proto.disableRpcLogging }

/-- convertProtoToBosdynMsgsCommonError (lines 87-91). -/
def convertProtoToBosdynMsgsCommonError (proto : ProtoCommonError) : CommonErrorMsg :=
  { code := proto.code, message := proto.message }

/-- convertProtoToBosdynMsgsResponseHeader (lines 93-104): every optional
accessor value of every optional sub-field is copied unconditionally and every companion
is-set flag mirrors the corresponding has_ bit. -/
def convertProtoToBosdynMsgsResponseHeader (proto : ProtoResponseHeader) : ResponseHeaderMsg :=
  { request_header :=
      convertProtoToBosdynMsgsRequestHeader (proto.requestHeader.getD protoRequestHeaderZero),
    request_header_is_set := proto.requestHeader.isSome,
    request_received_timestamp :=
      convertProtoToBuiltinInterfacesTime (proto.requestReceivedTimestamp.getD protoTimestampZero),
    request_received_timestamp_is_set := proto.requestReceivedTimestamp.isSome,
    response_timestamp :=
      convertProtoToBuiltinInterfacesTime (proto.responseTimestamp.getD protoTimestampZero),
    response_timestamp_is_set := proto.responseTimestamp.isSome,
    error := convertProtoToBosdynMsgsCommonError (proto.error.getD protoCommonErrorZero),
    error_is_set := proto.error.isSome }

/-! ## Arm joint position conversion (common_conversions.cpp, lines 54-74) -/

/-- bosdyn_msgs::msg::ArmJointPosition: six double fields, each with a
companion is-set flag.  The double payloads are modelled exactly as copied
values. -/
structure ArmJointPositionMsg where
  sh0 : Int
  sh0_is_set : Bool
  sh1 : Int
  sh1_is_set : Bool
  el0 : Int
  el0_is_set : Bool
  el1 : Int
  el1_is_set : Bool
  wr0 : Int
  wr0_is_set : Bool
  wr1 : Int
  wr1_is_set : Bool
  deriving Repr, DecidableEq

/-- bosdyn::api::ArmJointPosition: six optional google.protobuf.DoubleValue
fields, present exactly when mutable_*/set_value was called. -/
structure ProtoArmJointPosition where
  sh0 : Option Int
  sh1 : Option Int
  el0 : Option Int
  el1 : Option Int
  wr0 : Option Int
  wr1 : Option Int
  deriving Repr, DecidableEq

/-- A freshly constructed bosdyn::api::ArmJointPosition: no field present. -/
def protoArmJointPositionEmpty : ProtoArmJointPosition :=
  ⟨none, none, none, none, none, none⟩

/-- convertBosdynMsgsArmJointPositionToProto: for each joint field, writes
the wrapped double into the output protobuf exactly when the matching
is-set flag of the message is true; the output parameter is threaded explicitly since the
C++ takes it by mutable reference. -/
def convertBosdynMsgsArmJointPositionToProto (ros : ArmJointPositionMsg)
    (proto : ProtoArmJointPosition) : ProtoArmJointPosition :=
  let p := if ros.sh0_is_set then { proto with sh0 := some ros.sh0 } else proto
  let p := if ros.sh1_is_set then { p with sh1 := some ros.sh1 } else p
  let p := if ros.el0_is_set then { p with el0 := some ros.el0 } else p
  let p := if ros.el1_is_set then { p with el1 := some ros.el1 } else p
  let p := if ros.wr0_is_set then { p with wr0 := some ros.wr0 } else p
  let p := if ros.wr1_is_set then { p with wr1 := some ros.wr1 } else p
  p

/-! ## Snapshot assembler (default_robot_state_client.cpp) -/

/-- A clock-skew duration (local time minus robot time), as one signed
quantity in nanoseconds. -/
abbrev ClockSkew := Int

/-- Modelled from the spec: the raw wire-format robot state returned by one
fetch (bosdyn::api::RobotState; its message definition is generated code
outside this tree).  It carries one robot-clock timestamp per timestamped
category plus representative untimestamped payloads. -/
structure RawRobotState where
  batteryStamp : Int
  estopStamp : Int
  jointStamp : Int
  tfStamp : Int
  odomTwistStamp : Int
  odomStamp : Int
  powerStamp : Int
  systemFaultStamp : Int
  endEffectorStamp : Int
  behaviorFaultStamp : Int
  wifiEssid : String
  footCount : Nat
  gripperOpenPercentage : Int
  deriving Repr, DecidableEq

/-- Translated battery sub-state: a locally-stamped message. -/
structure BatteryStatesMsg where
  stamp : Int
  deriving Repr, DecidableEq

/-- Translated Wi-Fi sub-state (no timestamp, no skew input). -/
structure WifiStateMsg where
  essid : String
  deriving Repr, DecidableEq

/-- Translated foot sub-state (no timestamp, no skew input). -/
structure FootStateMsg where
  count : Nat
  deriving Repr, DecidableEq

/-- Translated e-stop sub-state. -/
structure EstopStatesMsg where
  stamp : Int
  deriving Repr, DecidableEq

/-- Translated joint-state sub-state; joint frames carry the robot prefix. -/
structure JointStatesMsg where
  stamp : Int
  framePfx : String
  deriving Repr, DecidableEq

/-- Translated transform-tree sub-state; frames carry the robot prefix and
the preferred odometry frame string selects the tree root. -/
structure TfMsg where
  stamp : Int
  framePfx : String
  preferredOdomFrame : String
  deriving Repr, DecidableEq

/-- Translated odometry-twist sub-state. -/
structure OdomTwistMsg where
  stamp : Int
  deriving Repr, DecidableEq

/-- Translated odometry sub-state; isUsingVision records which of the two
odometry estimators was selected as authoritative. -/
structure OdomMsg where
  stamp : Int
  framePfx : String
  isUsingVision : Bool
  deriving Repr, DecidableEq

/-- Translated power sub-state. -/
structure PowerStateMsg where
  stamp : Int
  deriving Repr, DecidableEq

/-- Translated system-fault sub-state. -/
structure SystemFaultStateMsg where
  stamp : Int
  deriving Repr, DecidableEq

/-- Translated manipulator sub-state (no timestamp, no skew input). -/
structure ManipulatorStateMsg where
  gripperOpenPercentage : Int
  deriving Repr, DecidableEq

/-- Translated end-effector force sub-state; the force frame carries the
robot prefix. -/
structure EndEffectorForceMsg where
  stamp : Int
  framePfx : String
  deriving Repr, DecidableEq

/-- Translated behavior-fault sub-state. -/
structure BehaviorFaultStateMsg where
  stamp : Int
  deriving Repr, DecidableEq

/-- Modelled from the spec: GetBatteryStates (robot_state conversion source
not in this tree) shifts the raw battery timestamp by the single clock skew
of the call. -/
def GetBatteryStates (rs : RawRobotState) (skew : ClockSkew) : BatteryStatesMsg :=
  ⟨rs.batteryStamp + skew⟩

/-- Modelled from the spec: GetWifiState copies the untimestamped Wi-Fi
payload; it receives no skew. -/
def GetWifiState (rs : RawRobotState) : WifiStateMsg :=
  ⟨rs.wifiEssid⟩

/-- Modelled from the spec: GetFootState copies the untimestamped foot
payload; it receives no skew. -/
def GetFootState (rs : RawRobotState) : FootStateMsg :=
  ⟨rs.footCount⟩

/-- Modelled from the spec: GetEstopStates shifts the raw e-stop timestamp
by the clock skew. -/
def GetEstopStates (rs : RawRobotState) (skew : ClockSkew) : EstopStatesMsg :=
  ⟨rs.estopStamp + skew⟩

/-- Modelled from the spec: GetJointStates shifts the raw joint timestamp by
the clock skew and qualifies joint frames with the robot prefix. -/
def GetJointStates (rs : RawRobotState) (skew : ClockSkew) (pfx : String) : JointStatesMsg :=
  ⟨rs.jointStamp + skew, pfx⟩

/-- Modelled from the spec: GetTf shifts the raw transform timestamp by the
clock skew and qualifies frames with the robot prefix; the preferred
odometry frame string chooses the transform-tree root. -/
def GetTf (rs : RawRobotState) (skew : ClockSkew) (pfx : String)
    (preferredOdomFrame : String) : TfMsg :=
  ⟨rs.tfStamp + skew, pfx, preferredOdomFrame⟩

/-- Modelled from the spec: GetOdomTwist shifts the raw odometry-twist
timestamp by the clock skew. -/
def GetOdomTwist (rs : RawRobotState) (skew : ClockSkew) : OdomTwistMsg :=
  ⟨rs.odomTwistStamp + skew⟩

/-- Modelled from the spec: GetOdom shifts the raw odometry timestamp by the
clock skew, qualifies frames, and records which odometry estimator was
selected by the boolean computed at the call site. -/
def GetOdom (rs : RawRobotState) (skew : ClockSkew) (pfx : String)
    (isUsingVision : Bool) : OdomMsg :=
  ⟨rs.odomStamp + skew, pfx, isUsingVision⟩

/-- Modelled from the spec: GetPowerState shifts the raw power timestamp by
the clock skew. -/
def GetPowerState (rs : RawRobotState) (skew : ClockSkew) : PowerStateMsg :=
  ⟨rs.powerStamp + skew⟩

/-- Modelled from the spec: GetSystemFaultState shifts the raw system-fault
timestamp by the clock skew. -/
def GetSystemFaultState (rs : RawRobotState) (skew : ClockSkew) : SystemFaultStateMsg :=
  ⟨rs.systemFaultStamp + skew⟩

/-- Modelled from the spec: GetManipulatorState copies the untimestamped
manipulator payload; it receives no skew. -/
def GetManipulatorState (rs : RawRobotState) : ManipulatorStateMsg :=
  ⟨rs.gripperOpenPercentage⟩

/-- Modelled from the spec: GetEndEffectorForce shifts the raw end-effector
timestamp by the clock skew and qualifies the force frame. -/
def GetEndEffectorForce (rs : RawRobotState) (skew : ClockSkew) (pfx : String) :
    EndEffectorForceMsg :=
  ⟨rs.endEffectorStamp + skew, pfx⟩

/-- Modelled from the spec: GetBehaviorFaultState shifts the raw
behavior-fault timestamp by the clock skew. -/
def GetBehaviorFaultState (rs : RawRobotState) (skew : ClockSkew) : BehaviorFaultStateMsg :=
  ⟨rs.behaviorFaultStamp + skew⟩

/-- Modelled from the spec: the RobotState output aggregate (declared in a
header not in this tree); the thirteen sub-states in the order of the
aggregate initializer of getRobotState. -/
structure RobotState where
  batteryStates : BatteryStatesMsg
  wifiState : WifiStateMsg
  footState : FootStateMsg
  estopStates : EstopStatesMsg
  jointStates : JointStatesMsg
  tf : TfMsg
  odomTwist : OdomTwistMsg
  odom : OdomMsg
  powerState : PowerStateMsg
  systemFaultState : SystemFaultStateMsg
  manipulatorState : ManipulatorStateMsg
  endEffectorForce : EndEffectorForceMsg
  behaviorFaultState : BehaviorFaultStateMsg
  deriving Repr, DecidableEq

/-- The ::bosdyn::common::Status of a remote call: truthiness plus the
DebugString diagnostic text. -/
structure BosdynStatus where
  ok : Bool
  debugString : String
  deriving Repr, DecidableEq

/-- The GetRobotStateResponse message: has_robot_state presence bit plus the
robot_state payload accessor. -/
structure RobotStateResponse where
  hasRobotState : Bool
  robotState : RawRobotState
  deriving Repr, DecidableEq

/-- ::bosdyn::client::RobotStateResultType: status plus response. -/
structure RobotStateResult where
  status : BosdynStatus
  response : RobotStateResponse
  deriving Repr, DecidableEq

/-- A DefaultRobotStateClient together with the outcomes its two
collaborators will produce during one call: fetchResult is what the
awaited GetRobotStateAsync future resolves to, and clockSkewResult is what
time_sync_api_->getClockSkew() returns (tl::expected is Except). -/
structure DefaultRobotStateClient where
  fetchResult : RobotStateResult
  clockSkewResult : Except String ClockSkew
  framePfx : String
  deriving Repr

/-- The DefaultRobotStateClient constructor (lines 11-14): frame_prefix_ is
empty when the robot name is empty and robot_name + "/" otherwise. -/
def mkDefaultRobotStateClient (fetch : RobotStateResult)
    (skewResult : Except String ClockSkew) (robot_name : String) : DefaultRobotStateClient :=
  ⟨fetch, skewResult, if robot_name.isEmpty then "" else robot_name ++ "/"⟩

/-- The thirteen per-category translators, one tag per aggregate field, in
the order the aggregate initializer lists them. -/
inductive Tag where
  | battery
  | wifi
  | foot
  | estop
  | joint
  | tf
  | odomTwist
  | odom
  | power
  | systemFault
  | manipulator
  | endEffector
  | behaviorFault
  deriving Repr, DecidableEq

/-- All thirteen translator tags in source order. -/
def Tag.all : List Tag :=
  [.battery, .wifi, .foot, .estop, .joint, .tf, .odomTwist, .odom, .power,
   .systemFault, .manipulator, .endEffector, .behaviorFault]

/-- One observable collaborator interaction of a getRobotState call: the
awaited asynchronous fetch, the clock-skew query, or one translator run. -/
inductive Event where
  | fetch
  | skewQuery
  | translate (t : Tag)
  deriving Repr, DecidableEq

/-- DefaultRobotStateClient::getRobotState (lines 16-48).  Returns the
tl::expected result together with the trace of collaborator interactions
the call performed, in order: the fetch always happens first; the
clock-skew query happens only if the fetch yielded a usable response; the
thirteen translators run only if both succeeded, and their outputs form the
aggregate initializer field for field. -/
def getRobotState (c : DefaultRobotStateClient) (preferred_odom_frame : String) :
    Except String RobotState × List Event :=
  let r := c.fetchResult
  if !r.status.ok || !r.response.hasRobotState then
    (Except.error ("Failed to get robot state: " ++ r.status.debugString), [Event.fetch])
  else
    match c.clockSkewResult with
    | Except.error e =>
        (Except.error ("Failed to get latest clock skew: " ++ e),
         [Event.fetch, Event.skewQuery])
    | Except.ok skew =>
        let rs := r.response.robotState
        (Except.ok
          { batteryStates := GetBatteryStates rs skew
            wifiState := GetWifiState rs
            footState := GetFootState rs
            estopStates := GetEstopStates rs skew
            jointStates := GetJointStates rs skew c.framePfx
            tf := GetTf rs skew c.framePfx preferred_odom_frame
            odomTwist := GetOdomTwist rs skew
            odom := GetOdom rs skew c.framePfx
                      (preferred_odom_frame == c.framePfx ++ "vision")
            powerState := GetPowerState rs skew
            systemFaultState := GetSystemFaultState rs skew
            manipulatorState := GetManipulatorState rs
            endEffectorForce := GetEndEffectorForce rs skew c.framePfx
            behaviorFaultState := GetBehaviorFaultState rs skew },
         [Event.fetch, Event.skewQuery] ++ Tag.all.map Event.translate)

/-- The source condition under which getRobotState reports a fetch failure:
falsy status or a response without the robot_state payload (line 21). -/
def fetchFailed (c : DefaultRobotStateClient) : Bool :=
  !c.fetchResult.status.ok || !c.fetchResult.response.hasRobotState

/-- The value produced by one translator, tagged by category. -/
inductive SubVal where
  | battery (v : BatteryStatesMsg)
  | wifi (v : WifiStateMsg)
  | foot (v : FootStateMsg)
  | estop (v : EstopStatesMsg)
  | joint (v : JointStatesMsg)
  | tf (v : TfMsg)
  | odomTwist (v : OdomTwistMsg)
  | odom (v : OdomMsg)
  | power (v : PowerStateMsg)
  | systemFault (v : SystemFaultStateMsg)
  | manipulator (v : ManipulatorStateMsg)
  | endEffector (v : EndEffectorForceMsg)
  | behaviorFault (v : BehaviorFaultStateMsg)
  deriving Repr, DecidableEq

/-- Run the one translator named by a tag, with exactly the arguments the
aggregate initializer of getRobotState passes it. -/
def translateOne (rs : RawRobotState) (skew : ClockSkew) (pfx : String)
    (preferred_odom_frame : String) : Tag → SubVal
  | .battery => .battery (GetBatteryStates rs skew)
  | .wifi => .wifi (GetWifiState rs)
  | .foot => .foot (GetFootState rs)
  | .estop => .estop (GetEstopStates rs skew)
  | .joint => .joint (GetJointStates rs skew pfx)
  | .tf => .tf (GetTf rs skew pfx preferred_odom_frame)
  | .odomTwist => .odomTwist (GetOdomTwist rs skew)
  | .odom => .odom (GetOdom rs skew pfx (preferred_odom_frame == pfx ++ "vision"))
  | .power => .power (GetPowerState rs skew)
  | .systemFault => .systemFault (GetSystemFaultState rs skew)
  | .manipulator => .manipulator (GetManipulatorState rs)
  | .endEffector => .endEffector (GetEndEffectorForce rs skew pfx)
  | .behaviorFault => .behaviorFault (GetBehaviorFaultState rs skew)

/-- Project the sub-state of an assembled RobotState named by a tag. -/
def RobotState.fieldOf (st : RobotState) : Tag → SubVal
  | .battery => .battery st.batteryStates
  | .wifi => .wifi st.wifiState
  | .foot => .foot st.footState
  | .estop => .estop st.estopStates
  | .joint => .joint st.jointStates
  | .tf => .tf st.tf
  | .odomTwist => .odomTwist st.odomTwist
  | .odom => .odom st.odom
  | .power => .power st.powerState
  | .systemFault => .systemFault st.systemFaultState
  | .manipulator => .manipulator st.manipulatorState
  | .endEffector => .endEffector st.endEffectorForce
  | .behaviorFault => .behaviorFault st.behaviorFaultState

/-- Run the translators in an arbitrary order, each writing the slot of its category in
slot of an initially empty partial aggregate; later writes to the same slot
overwrite earlier ones. -/
def runOrder (rs : RawRobotState) (skew : ClockSkew) (pfx : String)
    (preferred_odom_frame : String) (order : List Tag) : Tag → Option SubVal :=
  order.foldl
    (fun acc t => fun u =>
      if u = t then some (translateOne rs skew pfx preferred_odom_frame t) else acc u)
    (fun _ => none)

/-! ## Joint maps and reordering (spot_joint_map.hpp) -/

/-- Number of joints expected when the robot has an arm (line 45). -/
def kNjointsArm : Nat := 19

/-- Number of joints expected when the robot has no arm (line 47). -/
def kNjointsNoArm : Nat := 12

/-- kJointNameToIndexWithArm (lines 50-56), as the association list of its
initializer; unordered_map semantics over these distinct keys coincide
with first-match lookup. -/
def kJointNameToIndexWithArm : List (String × Nat) :=
  [("front_left_hip_x", 0), ("front_left_hip_y", 1), ("front_left_knee", 2),
   ("front_right_hip_x", 3), ("front_right_hip_y", 4), ("front_right_knee", 5),
   ("rear_left_hip_x", 6), ("rear_left_hip_y", 7), ("rear_left_knee", 8),
   ("rear_right_hip_x", 9), ("rear_right_hip_y", 10), ("rear_right_knee", 11),
   ("arm_sh0", 12), ("arm_sh1", 13), ("arm_el0", 14), ("arm_el1", 15),
   ("arm_wr0", 16), ("arm_wr1", 17), ("arm_f1x", 18)]

/-- kJointNameToIndexWithoutArm (lines 58-62). -/
def kJointNameToIndexWithoutArm : List (String × Nat) :=
  [("front_left_hip_x", 0), ("front_left_hip_y", 1), ("front_left_knee", 2),
   ("front_right_hip_x", 3), ("front_right_hip_y", 4), ("front_right_knee", 5),
   ("rear_left_hip_x", 6), ("rear_left_hip_y", 7), ("rear_left_knee", 8),
   ("rear_right_hip_x", 9), ("rear_right_hip_y", 10), ("rear_right_knee", 11)]

/-- unordered_map lookup (map.at / find) over the association-list model:
first entry whose key matches. -/
def lookupIdx (m : List (String × Nat)) (k : String) : Option Nat :=
  match m with
  | [] => none
  | p :: rest => if p.1 = k then some p.2 else lookupIdx rest k

/-- get_namespaced_joint_map (lines 68-79): the default map when the
namespace is empty, otherwise every key prefixed with spot_name + "/" and
every index unchanged. -/
def get_namespaced_joint_map (spot_name : String) (has_arm : Bool) : List (String × Nat) :=
  let default_map := if has_arm then kJointNameToIndexWithArm else kJointNameToIndexWithoutArm
  if spot_name.isEmpty then default_map
  else default_map.map (fun p => (spot_name ++ "/" ++ p.1, p.2))

/-- sensor_msgs::msg::JointState: four parallel arrays; double payloads are
modelled as copied values. -/
structure JointStateMsg where
  name : List String
  position : List Int
  velocity : List Int
  effort : List Int
  deriving Repr, DecidableEq

/-- std::vector::resize with value-initialized padding: keep the first n
elements, pad with the default to length n. -/
def resizeList (xs : List α) (n : Nat) (d : α) : List α :=
  xs.take n ++ List.replicate (n - xs.length) d

/-- The loop of order_joint_states (lines 107-120) over the remaining input
indices: look the i-th input name up in the joint map; on a miss return
false with the output as overwritten so far, otherwise write the i-th
input name/position/velocity/effort at the mapped index and continue. -/
def orderLoop (jm : List (String × Nat)) (input : JointStateMsg) :
    List Nat → JointStateMsg → Bool × JointStateMsg
  | [], out => (true, out)
  | i :: rest, out =>
    let jointName := input.name.getD i ""
    match lookupIdx jm jointName with
    | none => (false, out)
    | some idx =>
        orderLoop jm input rest
          { name := out.name.set idx jointName
            position := out.position.set idx (input.position.getD i 0)
            velocity := out.velocity.set idx (input.velocity.getD i 0)
            effort := out.effort.set idx (input.effort.getD i 0) }

/-- order_joint_states (lines 87-122): reject any joint count other than 19
(arm) or 12 (no arm) before touching the output; otherwise resize all four
output arrays to the joint count and run the reordering loop.  The output
message is threaded explicitly since the C++ takes it by mutable
reference. -/
def order_joint_states (spot_name : String) (input output : JointStateMsg) :
    Bool × JointStateMsg :=
  let njoints := input.position.length
  if njoints ≠ kNjointsArm ∧ njoints ≠ kNjointsNoArm then (false, output)
  else
    let has_arm := njoints == kNjointsArm
    let out0 : JointStateMsg :=
      { name := resizeList output.name njoints ""
        position := resizeList output.position njoints 0
        velocity := resizeList output.velocity njoints 0
        effort := resizeList output.effort njoints 0 }
    orderLoop (get_namespaced_joint_map spot_name has_arm) input (List.range njoints) out0

/-! ## Concrete example inputs used by witnesses and counterexamples -/

/-- A concrete raw snapshot: distinct robot-clock stamps per category. -/
def exRaw : RawRobotState :=
  ⟨100, 101, 102, 103, 104, 105, 106, 107, 108, 109, "spot-wifi", 4, 50⟩

/-- A successful fetch result carrying exRaw. -/
def exFetchOk : RobotStateResult := ⟨⟨true, "OK"⟩, ⟨true, exRaw⟩⟩

/-- A fetch result whose status is falsy. -/
def exFetchBadStatus : RobotStateResult := ⟨⟨false, "STATUS_FAIL"⟩, ⟨true, exRaw⟩⟩

/-- A fetch result whose response lacks the robot_state payload. -/
def exFetchNoPayload : RobotStateResult := ⟨⟨true, "OK"⟩, ⟨false, exRaw⟩⟩

/-- A client for robot "spot1" whose fetch and skew query (skew +5) both
succeed. -/
def exClientOk : DefaultRobotStateClient := mkDefaultRobotStateClient exFetchOk (.ok 5) "spot1"

/-- A client whose fetch fails with a falsy status. -/
def exClientFetchFail : DefaultRobotStateClient :=
  mkDefaultRobotStateClient exFetchBadStatus (.ok 5) "spot1"

/-- A client whose fetch succeeds but whose clock-skew query fails. -/
def exClientSkewFail : DefaultRobotStateClient :=
  mkDefaultRobotStateClient exFetchOk (.error "no time sync") "spot1"

/-- The aggregate that the getRobotState call of exClientOk assembles with
preferred odometry frame "odom" (skew +5 applied to every stamp). -/
def exStateOk : RobotState :=
  ⟨⟨105⟩, ⟨"spot-wifi"⟩, ⟨4⟩, ⟨106⟩, ⟨107, "spot1/"⟩, ⟨108, "spot1/", "odom"⟩, ⟨109⟩,
   ⟨110, "spot1/", false⟩, ⟨111⟩, ⟨112⟩, ⟨50⟩, ⟨113, "spot1/"⟩, ⟨114⟩⟩

/-- The aggregate that the getRobotState call of exClientOk assembles with the
unrecognized preferred odometry frame "map". -/
def exStateMap : RobotState :=
  ⟨⟨105⟩, ⟨"spot-wifi"⟩, ⟨4⟩, ⟨106⟩, ⟨107, "spot1/"⟩, ⟨108, "spot1/", "map"⟩, ⟨109⟩,
   ⟨110, "spot1/", false⟩, ⟨111⟩, ⟨112⟩, ⟨50⟩, ⟨113, "spot1/"⟩, ⟨114⟩⟩

/-- An empty JointState output message. -/
def emptyJointState : JointStateMsg := ⟨[], [], [], []⟩

/-- A 12-joint input with pairwise distinct, shuffled valid names. -/
def goodJointInput : JointStateMsg :=
  { name := ["front_left_hip_y", "front_left_hip_x", "front_left_knee", "front_right_hip_x",
             "front_right_hip_y", "front_right_knee", "rear_left_hip_x", "rear_left_hip_y",
             "rear_left_knee", "rear_right_hip_x", "rear_right_hip_y", "rear_right_knee"],
    position := [21, 22, 23, 24, 25, 26, 27, 28, 29, 30, 31, 32],
    velocity := [41, 42, 43, 44, 45, 46, 47, 48, 49, 50, 51, 52],
    effort := [61, 62, 63, 64, 65, 66, 67, 68, 69, 70, 71, 72] }

/-- A 12-joint input whose first two joints share one name (both map to
index 0 of the no-arm joint map) but carry different data. -/
def dupJointInput : JointStateMsg :=
  { name := ["front_left_hip_x", "front_left_hip_x", "front_left_knee", "front_right_hip_x",
             "front_right_hip_y", "front_right_knee", "rear_left_hip_x", "rear_left_hip_y",
             "rear_left_knee", "rear_right_hip_x", "rear_right_hip_y", "rear_right_knee"],
    position := [1, 2, 3, 4, 5, 6, 7, 8, 9, 10, 11, 12],
    velocity := [0, 0, 0, 0, 0, 0, 0, 0, 0, 0, 0, 0],
    effort := [0, 0, 0, 0, 0, 0, 0, 0, 0, 0, 0, 0] }

/-! ## Theorems -/

/-- The fetch-failure diagnostic and the clock-skew diagnostic can never be
the same string: they differ at the fourteenth character. -/
theorem fetch_skew_msg_ne (d e : String) :
    "Failed to get robot state: " ++ d ≠ "Failed to get latest clock skew: " ++ e := by
  intro h
  have h2 := congrArg String.data h
  simp [String.data_append] at h2

/-- C7: converting the ROS representation of a quaternion, 3-vector, point,
pose, or (well-formed) timestamp to protobuf and the result back to ROS
returns the original value: every conversion is a field-for-field copy in
the same component order (w,x,y,z for quaternions; x,y,z for vectors;
seconds plus fractional-seconds for timestamps), with no renormalization
applied to any payload. -/
theorem conversion_round_trip (α : Type) (q : GeomQuaternion α) (v : GeomVector3 α)
    (pt : GeomPoint α) (p : GeomPose α) (t : BuiltinTime) (ht : t.valid) :
    convertProtoToGeometryMsgsQuaternion (convertGeometryMsgsQuaternionToProto q) = q ∧
    convertProtoToGeometryMsgsVector3 (convertGeometryMsgsVector3ToProto v) = v ∧
    convertProtoToGeometryMsgsPoint (convertGeometryMsgsPointToProto pt) = pt ∧
    convertProtoToGeometryMsgsPose (convertGeometryMsgsPoseToProto p) = p ∧
    convertProtoToBuiltinInterfacesTime (convertBuiltinInterfacesTimeToProto t) = t := by
  obtain ⟨s, n⟩ := t
  simp only [BuiltinTime.valid] at ht
  obtain ⟨hs1, hs2, hn⟩ := ht
  refine ⟨rfl, rfl, rfl, rfl, ?_⟩
  simp only [convertBuiltinInterfacesTimeToProto, convertProtoToBuiltinInterfacesTime,
    toInt32, toUInt32n, BuiltinTime.mk.injEq]
  refine ⟨by omega, by omega⟩

/-- Witness for conversion_round_trip at concrete inputs, including a
nanosecond count above 2^31 that exercises the uint32-to-int32 wrap and a
deliberately non-unit quaternion (nothing is renormalized). -/
theorem conversion_round_trip_witness :
    BuiltinTime.valid ⟨5, 3000000000⟩ ∧
    convertProtoToBuiltinInterfacesTime
      (convertBuiltinInterfacesTimeToProto ⟨5, 3000000000⟩) = ⟨5, 3000000000⟩ ∧
    convertProtoToGeometryMsgsQuaternion
      (convertGeometryMsgsQuaternionToProto (⟨2, 3, 4, 5⟩ : GeomQuaternion Int)) = ⟨2, 3, 4, 5⟩ := by
  refine ⟨by decide, ?_, ?_⟩
  · exact (conversion_round_trip Int ⟨2, 3, 4, 5⟩ ⟨0, 0, 0⟩ ⟨0, 0, 0⟩ ⟨⟨0, 0, 0⟩, ⟨0, 0, 0, 0⟩⟩
      ⟨5, 3000000000⟩ (by decide)).2.2.2.2
  · exact (conversion_round_trip Int ⟨2, 3, 4, 5⟩ ⟨0, 0, 0⟩ ⟨0, 0, 0⟩ ⟨⟨0, 0, 0⟩, ⟨0, 0, 0, 0⟩⟩
      ⟨5, 3000000000⟩ (by decide)).1

/-- C6: for every ArmJointPosition message converted into a fresh protobuf,
each of the six joint fields is present in the output exactly when the
companion is-set flag in the message is true, and when present it holds
the value from the message; absent optional fields are never synthesized. -/
theorem arm_joint_position_optionals (ros : ArmJointPositionMsg) :
    (convertBosdynMsgsArmJointPositionToProto ros protoArmJointPositionEmpty).sh0
        = (if ros.sh0_is_set then some ros.sh0 else none) ∧
    (convertBosdynMsgsArmJointPositionToProto ros protoArmJointPositionEmpty).sh1
        = (if ros.sh1_is_set then some ros.sh1 else none) ∧
    (convertBosdynMsgsArmJointPositionToProto ros protoArmJointPositionEmpty).el0
        = (if ros.el0_is_set then some ros.el0 else none) ∧
    (convertBosdynMsgsArmJointPositionToProto ros protoArmJointPositionEmpty).el1
        = (if ros.el1_is_set then some ros.el1 else none) ∧
    (convertBosdynMsgsArmJointPositionToProto ros protoArmJointPositionEmpty).wr0
        = (if ros.wr0_is_set then some ros.wr0 else none) ∧
    (convertBosdynMsgsArmJointPositionToProto ros protoArmJointPositionEmpty).wr1
        = (if ros.wr1_is_set then some ros.wr1 else none) := by
  obtain ⟨s0, f0, s1, f1, e0, g0, e1, g1, w0, u0, w1, u1⟩ := ros
  cases f0 <;> cases f1 <;> cases g0 <;> cases g1 <;> cases u0 <;> cases u1 <;>
    simp [convertBosdynMsgsArmJointPositionToProto, protoArmJointPositionEmpty]

/-- C9: converting a protobuf RequestHeader or ResponseHeader to ROS copies
the accessor value of every optional sub-field unconditionally — an absent
protobuf field yields the protobuf default (zeros / empty string) in the
ROS value field — while each companion is-set flag equals the protobuf
has_ bit, making the flag the authoritative presence indicator. -/
theorem header_presence_flags (ph : ProtoRequestHeader) (pr : ProtoResponseHeader) :
    ((convertProtoToBosdynMsgsRequestHeader ph).request_timestamp_is_set
        = ph.requestTimestamp.isSome) ∧
    (ph.requestTimestamp = none →
        (convertProtoToBosdynMsgsRequestHeader ph).request_timestamp = ⟨0, 0⟩) ∧
    (∀ v, ph.requestTimestamp = some v →
        (convertProtoToBosdynMsgsRequestHeader ph).request_timestamp
          = convertProtoToBuiltinInterfacesTime v) ∧
    ((convertProtoToBosdynMsgsResponseHeader pr).request_header_is_set
        = pr.requestHeader.isSome) ∧
    (pr.requestHeader = none →
        (convertProtoToBosdynMsgsResponseHeader pr).request_header
          = ⟨⟨0, 0⟩, false, "", false⟩) ∧
    (∀ v, pr.requestHeader = some v →
        (convertProtoToBosdynMsgsResponseHeader pr).request_header
          = convertProtoToBosdynMsgsRequestHeader v) ∧
    ((convertProtoToBosdynMsgsResponseHeader pr).request_received_timestamp_is_set
        = pr.requestReceivedTimestamp.isSome) ∧
    (pr.requestReceivedTimestamp = none →
        (convertProtoToBosdynMsgsResponseHeader pr).request_received_timestamp = ⟨0, 0⟩) ∧
    (∀ v, pr.requestReceivedTimestamp = some v →
        (convertProtoToBosdynMsgsResponseHeader pr).request_received_timestamp
          = convertProtoToBuiltinInterfacesTime v) ∧
    ((convertProtoToBosdynMsgsResponseHeader pr).response_timestamp_is_set
        = pr.responseTimestamp.isSome) ∧
    (pr.responseTimestamp = none →
        (convertProtoToBosdynMsgsResponseHeader pr).response_timestamp = ⟨0, 0⟩) ∧
    (∀ v, pr.responseTimestamp = some v →
        (convertProtoToBosdynMsgsResponseHeader pr).response_timestamp
          = convertProtoToBuiltinInterfacesTime v) ∧
    ((convertProtoToBosdynMsgsResponseHeader pr).error_is_set = pr.error.isSome) ∧
    (pr.error = none → (convertProtoToBosdynMsgsResponseHeader pr).error = ⟨0, ""⟩) ∧
    (∀ v, pr.error = some v →
        (convertProtoToBosdynMsgsResponseHeader pr).error
          = convertProtoToBosdynMsgsCommonError v) := by
  refine ⟨rfl, ?_, ?_, rfl, ?_, ?_, rfl, ?_, ?_, rfl, ?_, ?_, rfl, ?_, ?_⟩ <;>
    first
      | (intro h
         simp [convertProtoToBosdynMsgsResponseHeader, convertProtoToBosdynMsgsRequestHeader,
           convertProtoToBosdynMsgsCommonError, convertProtoToBuiltinInterfacesTime,
           protoTimestampZero, protoRequestHeaderZero, protoCommonErrorZero,
           toInt32, toUInt32n, h])
      | (intro v h
         simp [convertProtoToBosdynMsgsResponseHeader, convertProtoToBosdynMsgsRequestHeader,
           convertProtoToBosdynMsgsCommonError, protoTimestampZero, protoRequestHeaderZero,
           protoCommonErrorZero, h])

/-- Witness for header_presence_flags: a request header with an absent
timestamp maps to a zero timestamp with a false flag, and a response header
with a present received-timestamp and error copies them with true flags. -/
theorem header_presence_flags_witness :
    (convertProtoToBosdynMsgsRequestHeader ⟨none, "c", true⟩).request_timestamp = ⟨0, 0⟩ ∧
    (convertProtoToBosdynMsgsRequestHeader ⟨none, "c", true⟩).request_timestamp_is_set = false ∧
    (convertProtoToBosdynMsgsResponseHeader ⟨none, some ⟨7, 8⟩, none, some ⟨3, "boom"⟩⟩).request_received_timestamp
        = convertProtoToBuiltinInterfacesTime ⟨7, 8⟩ ∧
    (convertProtoToBosdynMsgsResponseHeader ⟨none, some ⟨7, 8⟩, none, some ⟨3, "boom"⟩⟩).error_is_set
        = true := by
  have h := header_presence_flags ⟨none, "c", true⟩ ⟨none, some ⟨7, 8⟩, none, some ⟨3, "boom"⟩⟩
  exact ⟨h.2.1 rfl, by simpa using h.1, h.2.2.2.2.2.2.2.2.1 ⟨7, 8⟩ rfl,
    by simpa using h.2.2.2.2.2.2.2.2.2.2.2.2.1⟩

/-- Shape of a getRobotState call whose fetch fails: one fetch error, one
fetch event, nothing else. -/
theorem getRobotState_fetch_fail (c : DefaultRobotStateClient) (pf : String)
    (hf : fetchFailed c = true) :
    getRobotState c pf
      = (Except.error ("Failed to get robot state: " ++ c.fetchResult.status.debugString),
         [Event.fetch]) := by
  unfold getRobotState
  rw [if_pos]
  exact hf

/-- Shape of a getRobotState call whose fetch succeeds but whose clock-skew
query fails: one skew error, fetch and skew-query events, no translator. -/
theorem getRobotState_skew_fail (c : DefaultRobotStateClient) (pf : String) (e : String)
    (hf : fetchFailed c = false) (hc : c.clockSkewResult = Except.error e) :
    getRobotState c pf
      = (Except.error ("Failed to get latest clock skew: " ++ e),
         [Event.fetch, Event.skewQuery]) := by
  unfold getRobotState
  rw [if_neg]
  · rw [hc]
  · exact fun h => by rw [show (!c.fetchResult.status.ok
      || !c.fetchResult.response.hasRobotState) = fetchFailed c from rfl, hf] at h; cases h

/-- Shape of a successful getRobotState call: the fully populated aggregate
built from all thirteen translators, after one fetch and one skew query. -/
theorem getRobotState_ok_shape (c : DefaultRobotStateClient) (pf : String) (skew : ClockSkew)
    (hf : fetchFailed c = false) (hc : c.clockSkewResult = Except.ok skew) :
    getRobotState c pf
      = (Except.ok
          { batteryStates := GetBatteryStates c.fetchResult.response.robotState skew
            wifiState := GetWifiState c.fetchResult.response.robotState
            footState := GetFootState c.fetchResult.response.robotState
            estopStates := GetEstopStates c.fetchResult.response.robotState skew
            jointStates := GetJointStates c.fetchResult.response.robotState skew c.framePfx
            tf := GetTf c.fetchResult.response.robotState skew c.framePfx pf
            odomTwist := GetOdomTwist c.fetchResult.response.robotState skew
            odom := GetOdom c.fetchResult.response.robotState skew c.framePfx
                      (pf == c.framePfx ++ "vision")
            powerState := GetPowerState c.fetchResult.response.robotState skew
            systemFaultState := GetSystemFaultState c.fetchResult.response.robotState skew
            manipulatorState := GetManipulatorState c.fetchResult.response.robotState
            endEffectorForce := GetEndEffectorForce c.fetchResult.response.robotState skew c.framePfx
            behaviorFaultState := GetBehaviorFaultState c.fetchResult.response.robotState skew },
         [Event.fetch, Event.skewQuery] ++ Tag.all.map Event.translate) := by
  unfold getRobotState
  rw [if_neg]
  · rw [hc]
  · exact fun h => by rw [show (!c.fetchResult.status.ok
      || !c.fetchResult.response.hasRobotState) = fetchFailed c from rfl, hf] at h; cases h

/-- In a successful call every sub-state of the returned aggregate equals
the output of its translator on the shared raw state, skew, and frames. -/
theorem getRobotState_ok_fields (c : DefaultRobotStateClient) (pf : String) (skew : ClockSkew)
    (st : RobotState) (hskew : c.clockSkewResult = Except.ok skew)
    (hok : (getRobotState c pf).1 = Except.ok st) (t : Tag) :
    st.fieldOf t = translateOne c.fetchResult.response.robotState skew c.framePfx pf t := by
  by_cases hf : fetchFailed c = true
  · rw [getRobotState_fetch_fail c pf hf] at hok
    cases hok
  · have hf' : fetchFailed c = false := by revert hf; cases fetchFailed c <;> simp
    rw [getRobotState_ok_shape c pf skew hf' hskew] at hok
    have hst : _ = st := Except.ok.inj hok
    subst hst
    cases t <;> rfl

/-- C1: if the fetch fails (falsy status or missing robot_state payload),
getRobotState returns an error without querying clock skew and without
running any translator; if the fetch succeeds but getClockSkew fails, it
returns an error and no translator runs; an aggregate is returned iff both
steps succeed, and a returned aggregate has all thirteen sub-states
populated with the outputs of their translators — never a partial aggregate. -/
theorem getRobotState_all_or_nothing (c : DefaultRobotStateClient) (pf : String) :
    (fetchFailed c = true →
      (∃ msg, (getRobotState c pf).1 = Except.error msg) ∧
      Event.skewQuery ∉ (getRobotState c pf).2 ∧
      (∀ t, Event.translate t ∉ (getRobotState c pf).2)) ∧
    (∀ e, fetchFailed c = false → c.clockSkewResult = Except.error e →
      (∃ msg, (getRobotState c pf).1 = Except.error msg) ∧
      (∀ t, Event.translate t ∉ (getRobotState c pf).2)) ∧
    ((∃ st, (getRobotState c pf).1 = Except.ok st) ↔
      (fetchFailed c = false ∧ ∃ skew, c.clockSkewResult = Except.ok skew)) ∧
    (∀ st skew, (getRobotState c pf).1 = Except.ok st → c.clockSkewResult = Except.ok skew →
      ∀ t, st.fieldOf t = translateOne c.fetchResult.response.robotState skew c.framePfx pf t) := by
  refine ⟨?_, ?_, ?_, fun st skew hok hskew => getRobotState_ok_fields c pf skew st hskew hok⟩
  · intro hf
    rw [getRobotState_fetch_fail c pf hf]
    exact ⟨⟨_, rfl⟩, by simp, fun t => by simp⟩
  · intro e hf hc
    rw [getRobotState_skew_fail c pf e hf hc]
    exact ⟨⟨_, rfl⟩, fun t => by simp⟩
  · constructor
    · rintro ⟨st, hst⟩
      by_cases hf : fetchFailed c = true
      · rw [getRobotState_fetch_fail c pf hf] at hst
        cases hst
      · have hf' : fetchFailed c = false := by revert hf; cases fetchFailed c <;> simp
        refine ⟨hf', ?_⟩
        cases hc : c.clockSkewResult with
        | error e => rw [getRobotState_skew_fail c pf e hf' hc] at hst; cases hst
        | ok skew => exact ⟨skew, rfl⟩
    · rintro ⟨hf, skew, hc⟩
      rw [getRobotState_ok_shape c pf skew hf hc]
      exact ⟨_, rfl⟩

/-- Witness for getRobotState_all_or_nothing: a failing fetch yields an
error with no translator events, and a client whose fetch and skew query
both succeed yields an aggregate. -/
theorem getRobotState_all_or_nothing_witness :
    ((∃ msg, (getRobotState exClientFetchFail "odom").1 = Except.error msg) ∧
      Event.skewQuery ∉ (getRobotState exClientFetchFail "odom").2 ∧
      (∀ t, Event.translate t ∉ (getRobotState exClientFetchFail "odom").2)) ∧
    (∃ st, (getRobotState exClientOk "odom").1 = Except.ok st) := by
  refine ⟨(getRobotState_all_or_nothing exClientFetchFail "odom").1 (by decide), ?_⟩
  exact (getRobotState_all_or_nothing exClientOk "odom").2.2.1.mpr ⟨by decide, 5, rfl⟩

/-- C2: in every successful getRobotState call the clock skew is queried
exactly once, and the single returned skew is what every
timestamp-translating converter applies: for each of the ten timestamped
sub-states of the assembled snapshot, corrected time minus raw time equals
that one skew, so any two timestamped fields agree on the difference. -/
theorem getRobotState_single_skew (c : DefaultRobotStateClient) (pf : String)
    (skew : ClockSkew) (st : RobotState)
    (hskew : c.clockSkewResult = Except.ok skew)
    (hok : (getRobotState c pf).1 = Except.ok st) :
    (getRobotState c pf).2.count Event.skewQuery = 1 ∧
    st.batteryStates.stamp - c.fetchResult.response.robotState.batteryStamp = skew ∧
    st.estopStates.stamp - c.fetchResult.response.robotState.estopStamp = skew ∧
    st.jointStates.stamp - c.fetchResult.response.robotState.jointStamp = skew ∧
    st.tf.stamp - c.fetchResult.response.robotState.tfStamp = skew ∧
    st.odomTwist.stamp - c.fetchResult.response.robotState.odomTwistStamp = skew ∧
    st.odom.stamp - c.fetchResult.response.robotState.odomStamp = skew ∧
    st.powerState.stamp - c.fetchResult.response.robotState.powerStamp = skew ∧
    st.systemFaultState.stamp - c.fetchResult.response.robotState.systemFaultStamp = skew ∧
    st.endEffectorForce.stamp - c.fetchResult.response.robotState.endEffectorStamp = skew ∧
    st.behaviorFaultState.stamp - c.fetchResult.response.robotState.behaviorFaultStamp = skew := by
  by_cases hf : fetchFailed c = true
  · rw [getRobotState_fetch_fail c pf hf] at hok
    cases hok
  · have hf' : fetchFailed c = false := by revert hf; cases fetchFailed c <;> simp
    rw [getRobotState_ok_shape c pf skew hf' hskew] at hok
    have hst : _ = st := Except.ok.inj hok
    subst hst
    rw [getRobotState_ok_shape c pf skew hf' hskew]
    refine ⟨by rfl, ?_, ?_, ?_, ?_, ?_, ?_, ?_, ?_, ?_, ?_⟩ <;>
      simp [GetBatteryStates, GetEstopStates, GetJointStates, GetTf, GetOdomTwist, GetOdom,
        GetPowerState, GetSystemFaultState, GetEndEffectorForce, GetBehaviorFaultState]

/-- Witness for getRobotState_single_skew: one skew query and a battery
stamp shifted from 100 to 105 by skew +5 (the concrete scenario of the spec). -/
theorem getRobotState_single_skew_witness :
    (getRobotState exClientOk "odom").2.count Event.skewQuery = 1 ∧
    exStateOk.batteryStates.stamp - exRaw.batteryStamp = 5 := by
  have h := getRobotState_single_skew exClientOk "odom" 5 exStateOk rfl rfl
  exact ⟨h.1, h.2.1⟩

/-- Appending "odom" and appending "vision" to one frame prefix always
yields different strings. -/
theorem append_odom_ne_vision (fp : String) : fp ++ "odom" ≠ fp ++ "vision" := by
  intro h
  have h2 := congrArg String.data h
  simp [String.data_append] at h2

/-- The string "map" is never a frame prefix followed by "vision". -/
theorem map_ne_append_vision (fp : String) : "map" ≠ fp ++ "vision" := by
  intro h
  have h2 := congrArg String.length h
  rw [String.length_append] at h2
  have h3 : (3 : Nat) = fp.length + 6 := h2
  omega

/-- C3: in a successful call, the boolean handed to the odometry translator
is true iff the preferred odometry frame equals framePfx ++ "vision"; both
framePfx ++ "odom" and unrecognized strings such as "map" select the
built-in estimator, and no preferred-frame value affects success. -/
theorem getRobotState_odom_frame_choice (c : DefaultRobotStateClient) (pf : String)
    (skew : ClockSkew) (st : RobotState)
    (hskew : c.clockSkewResult = Except.ok skew)
    (hok : (getRobotState c pf).1 = Except.ok st) :
    (st.odom.isUsingVision = true ↔ pf = c.framePfx ++ "vision") ∧
    (pf = c.framePfx ++ "odom" → st.odom.isUsingVision = false) ∧
    (pf = "map" → st.odom.isUsingVision = false) ∧
    (∀ pf2, (getRobotState c pf2).1.isOk = (getRobotState c pf).1.isOk) := by
  have hodom := getRobotState_ok_fields c pf skew st hskew hok Tag.odom
  have hvis : st.odom.isUsingVision = (pf == c.framePfx ++ "vision") := by
    simp only [RobotState.fieldOf, translateOne, GetOdom] at hodom
    rw [SubVal.odom.inj hodom]
  refine ⟨?_, ?_, ?_, ?_⟩
  · rw [hvis]
    exact beq_iff_eq
  · intro hp
    rw [hvis, beq_eq_false_iff_ne]
    exact hp ▸ append_odom_ne_vision c.framePfx
  · intro hp
    rw [hvis, beq_eq_false_iff_ne]
    exact hp ▸ map_ne_append_vision c.framePfx
  · intro pf2
    by_cases hff : fetchFailed c = true
    · rw [getRobotState_fetch_fail c pf2 hff, getRobotState_fetch_fail c pf hff]
    · have hff' : fetchFailed c = false := by revert hff; cases fetchFailed c <;> simp
      rw [getRobotState_ok_shape c pf2 skew hff' hskew, getRobotState_ok_shape c pf skew hff' hskew]
      rfl

/-- Witness for getRobotState_odom_frame_choice: the unrecognized preferred
frame "map" selects built-in odometry and the call still succeeds. -/
theorem getRobotState_odom_frame_choice_witness :
    exStateMap.odom.isUsingVision = false ∧
    (getRobotState exClientOk "vision").1.isOk = (getRobotState exClientOk "map").1.isOk := by
  have h := getRobotState_odom_frame_choice exClientOk "map" 5 exStateMap rfl rfl
  exact ⟨h.2.2.1 rfl, h.2.2.2 "vision"⟩

/-- C5: getRobotState reports the fetch-failure error exactly when the
remote status is falsy or the response lacks the robot_state payload; the
error carries the DebugString of the status; and the fetch is issued exactly
once per call, in every outcome. -/
theorem getRobotState_fetch_failure_report (c : DefaultRobotStateClient) (pf : String) :
    ((getRobotState c pf).1
        = Except.error ("Failed to get robot state: " ++ c.fetchResult.status.debugString)
      ↔ (c.fetchResult.status.ok = false ∨ c.fetchResult.response.hasRobotState = false)) ∧
    (getRobotState c pf).2.count Event.fetch = 1 := by
  have hcond : (fetchFailed c = true)
      ↔ (c.fetchResult.status.ok = false ∨ c.fetchResult.response.hasRobotState = false) := by
    simp [fetchFailed]
  constructor
  · by_cases hf : fetchFailed c = true
    · rw [getRobotState_fetch_fail c pf hf]
      exact ⟨fun _ => hcond.mp hf, fun _ => rfl⟩
    · have hf' : fetchFailed c = false := by revert hf; cases fetchFailed c <;> simp
      have hrhs : ¬(c.fetchResult.status.ok = false ∨ c.fetchResult.response.hasRobotState = false) :=
        fun h => by rw [hcond.mpr h] at hf'; cases hf'
      cases hc : c.clockSkewResult with
      | error e =>
        rw [getRobotState_skew_fail c pf e hf' hc]
        constructor
        · intro h
          exact absurd (Except.error.inj h).symm (fetch_skew_msg_ne _ _)
        · intro h
          exact absurd h hrhs
      | ok skew =>
        rw [getRobotState_ok_shape c pf skew hf' hc]
        constructor
        · intro h
          cases h
        · intro h
          exact absurd h hrhs
  · by_cases hf : fetchFailed c = true
    · rw [getRobotState_fetch_fail c pf hf]
      rfl
    · have hf' : fetchFailed c = false := by revert hf; cases fetchFailed c <;> simp
      cases hc : c.clockSkewResult with
      | error e =>
        rw [getRobotState_skew_fail c pf e hf' hc]
        rfl
      | ok skew =>
        rw [getRobotState_ok_shape c pf skew hf' hc]
        rfl

/-- Witness for getRobotState_fetch_failure_report: a falsy remote status
yields the fetch-failure error carrying the diagnostic text, after exactly
one fetch. -/
theorem getRobotState_fetch_failure_report_witness :
    (getRobotState exClientFetchFail "odom").1
        = Except.error ("Failed to get robot state: STATUS_FAIL") ∧
    (getRobotState exClientFetchFail "odom").2.count Event.fetch = 1 := by
  have h := getRobotState_fetch_failure_report exClientFetchFail "odom"
  exact ⟨h.1.mpr (Or.inl rfl), h.2⟩

/-- Writing translator outputs per tag in any order: the slot for a tag
holds the output of its translator exactly when the tag occurs in the order. -/
theorem runOrder_apply (rs : RawRobotState) (skew : ClockSkew) (pfx pf : String)
    (order : List Tag) (t : Tag) :
    runOrder rs skew pfx pf order t
      = if t ∈ order then some (translateOne rs skew pfx pf t) else none := by
  suffices h : ∀ (order : List Tag) (init : Tag → Option SubVal) (t : Tag),
      (order.foldl (fun acc u => fun w =>
          if w = u then some (translateOne rs skew pfx pf u) else acc w) init) t
        = if t ∈ order then some (translateOne rs skew pfx pf t) else init t by
    exact h order (fun _ => none) t
  intro order
  induction order with
  | nil => intro init t; simp
  | cons a rest ih =>
    intro init t
    rw [List.foldl_cons, ih]
    by_cases hm : t ∈ rest
    · simp [hm]
    · by_cases ha : t = a
      · subst ha
        simp [hm]
      · simp [hm, ha]

/-- C8: running the thirteen translators in any complete order produces
exactly the sub-states of the assembled RobotState — each sub-state is a
pure function of the shared raw state, skew, frame prefix, and preferred
odometry frame, so permuting translator order leaves the aggregate
identical. -/
theorem translator_order_independence (c : DefaultRobotStateClient) (pf : String)
    (skew : ClockSkew) (st : RobotState) (o1 o2 : List Tag)
    (hskew : c.clockSkewResult = Except.ok skew)
    (hok : (getRobotState c pf).1 = Except.ok st)
    (h1 : ∀ t, t ∈ o1) (h2 : ∀ t, t ∈ o2) :
    runOrder c.fetchResult.response.robotState skew c.framePfx pf o1
        = runOrder c.fetchResult.response.robotState skew c.framePfx pf o2 ∧
    runOrder c.fetchResult.response.robotState skew c.framePfx pf o1
        = fun t => some (st.fieldOf t) := by
  have key : ∀ o : List Tag, (∀ t, t ∈ o) →
      runOrder c.fetchResult.response.robotState skew c.framePfx pf o
        = fun t => some (st.fieldOf t) := by
    intro o ho
    funext t
    rw [runOrder_apply, if_pos (ho t), ← getRobotState_ok_fields c pf skew st hskew hok t]
  exact ⟨(key o1 h1).trans (key o2 h2).symm, key o1 h1⟩

/-- Witness for translator_order_independence: the source order and its
reverse produce the same written slots on a concrete successful call. -/
theorem translator_order_independence_witness :
    runOrder exRaw 5 "spot1/" "odom" Tag.all
      = runOrder exRaw 5 "spot1/" "odom" Tag.all.reverse := by
  exact (translator_order_independence exClientOk "odom" 5 exStateOk Tag.all Tag.all.reverse
    rfl rfl (by intro t; cases t <;> decide) (by intro t; cases t <;> decide)).1

/-- C4: the frame prefix for one assembly is empty for an empty robot name
and name ++ "/" otherwise; the namespaced joint map follows the same rule —
with an empty namespace its keys are the unmodified base joint names, and
otherwise each key is namespace ++ "/" ++ base name with the index of the joint
unchanged. -/
theorem frame_and_joint_prefixing (fetch : RobotStateResult)
    (skr : Except String ClockSkew) (name ns : String) (arm : Bool) :
    (name = "" → (mkDefaultRobotStateClient fetch skr name).framePfx = "") ∧
    (name ≠ "" → (mkDefaultRobotStateClient fetch skr name).framePfx = name ++ "/") ∧
    (ns = "" → get_namespaced_joint_map ns arm
        = (if arm then kJointNameToIndexWithArm else kJointNameToIndexWithoutArm)) ∧
    (ns ≠ "" → ∀ k i, ((k, i) ∈ get_namespaced_joint_map ns arm ↔
        ∃ b, (b, i) ∈ (if arm then kJointNameToIndexWithArm else kJointNameToIndexWithoutArm)
          ∧ k = ns ++ "/" ++ b)) := by
  refine ⟨?_, ?_, ?_, ?_⟩
  · intro h
    subst h
    rfl
  · intro h
    have he : name.isEmpty = false := by
      cases hne : name.isEmpty
      · rfl
      · exact absurd ((String.isEmpty_iff name).mp hne) h
    simp [mkDefaultRobotStateClient, he]
  · intro h
    subst h
    rfl
  · intro h k i
    have he : ns.isEmpty = false := by
      cases hne : ns.isEmpty
      · rfl
      · exact absurd ((String.isEmpty_iff ns).mp hne) h
    simp only [get_namespaced_joint_map, he, Bool.false_eq_true, if_false]
    constructor
    · intro hmem
      rcases List.mem_map.mp hmem with ⟨⟨b, j⟩, hb, hbe⟩
      cases hbe
      exact ⟨b, hb, rfl⟩
    · rintro ⟨b, hb, rfl⟩
      exact List.mem_map.mpr ⟨(b, i), hb, rfl⟩

/-- Witness for frame_and_joint_prefixing: robot name "spot1" yields prefix
"spot1/", and the arm map namespaced under "spot1" carries arm_sh0 at its
unchanged index 12. -/
theorem frame_and_joint_prefixing_witness :
    (mkDefaultRobotStateClient exFetchOk (Except.ok 5) "spot1").framePfx = "spot1/" ∧
    ("spot1/arm_sh0", 12) ∈ get_namespaced_joint_map "spot1" true := by
  have h := frame_and_joint_prefixing exFetchOk (Except.ok 5) "spot1" "spot1" true
  refine ⟨h.2.1 (by decide), ?_⟩
  exact (h.2.2.2 (by decide) "spot1/arm_sh0" 12).mpr ⟨"arm_sh0", by decide, rfl⟩

/-- A successful map lookup names an entry of the association list. -/
theorem lookupIdx_mem (m : List (String × Nat)) (k : String) (v : Nat)
    (h : lookupIdx m k = some v) : (k, v) ∈ m := by
  induction m with
  | nil => cases h
  | cons p rest ih =>
    rw [lookupIdx] at h
    by_cases hp : p.1 = k
    · rw [if_pos hp] at h
      have hv : p.2 = v := Option.some.inj h
      have : (k, v) = p := by rw [← hp, ← hv]
      exact this ▸ List.mem_cons_self p rest
    · rw [if_neg hp] at h
      exact List.mem_cons.mpr (Or.inr (ih h))

/-- The joint indices of a (possibly namespaced) joint map are pairwise
distinct: namespacing touches keys only. -/
theorem jm_snd_nodup (s : String) (arm : Bool) :
    ((get_namespaced_joint_map s arm).map Prod.snd).Nodup := by
  have key : ∀ m : List (String × Nat), (m.map Prod.snd).Nodup →
      ((if s.isEmpty then m else m.map (fun p => (s ++ "/" ++ p.1, p.2))).map Prod.snd).Nodup := by
    intro m hm
    cases hs : s.isEmpty
    · rw [if_neg (by simp [hs]), List.map_map]
      exact hm
    · simpa using hm
  exact key (if arm then kJointNameToIndexWithArm else kJointNameToIndexWithoutArm)
    (by cases arm <;> decide)

/-- Every index a joint-map lookup can return is below the expected joint
count for that map. -/
theorem lookupIdx_lt (s : String) (arm : Bool) (k : String) (v : Nat)
    (h : lookupIdx (get_namespaced_joint_map s arm) k = some v) :
    v < (if arm then kNjointsArm else kNjointsNoArm) := by
  have hmem := lookupIdx_mem _ _ _ h
  have hv : v ∈ (get_namespaced_joint_map s arm).map Prod.snd :=
    List.mem_map.mpr ⟨(k, v), hmem, rfl⟩
  have hbase : (get_namespaced_joint_map s arm).map Prod.snd
      = (if arm then kJointNameToIndexWithArm else kJointNameToIndexWithoutArm).map Prod.snd := by
    have key : ∀ m : List (String × Nat),
        ((if s.isEmpty then m else m.map (fun p => (s ++ "/" ++ p.1, p.2))).map Prod.snd)
          = m.map Prod.snd := by
      intro m
      cases hs : s.isEmpty
      · rw [if_neg (by simp [hs]), List.map_map]
        rfl
      · simp
    exact key _
  rw [hbase] at hv
  cases arm <;>
    simp [kJointNameToIndexWithArm, kJointNameToIndexWithoutArm,
      kNjointsArm, kNjointsNoArm] at hv ⊢ <;>
    omega

/-- Two keys that look up to the same index in one joint map are equal. -/
theorem lookupIdx_inj (s : String) (arm : Bool) (k1 k2 : String) (v : Nat)
    (h1 : lookupIdx (get_namespaced_joint_map s arm) k1 = some v)
    (h2 : lookupIdx (get_namespaced_joint_map s arm) k2 = some v) : k1 = k2 := by
  have m1 := lookupIdx_mem _ _ _ h1
  have m2 := lookupIdx_mem _ _ _ h2
  have heq := List.inj_on_of_nodup_map (jm_snd_nodup s arm) m1 m2 rfl
  exact congrArg Prod.fst heq

/-- resizeList always produces the requested length. -/
theorem resizeList_length (xs : List α) (n : Nat) (d : α) :
    (resizeList xs n d).length = n := by
  simp [resizeList]
  omega

/-- Reading an untouched position after a set: same as before. -/
theorem getD_set_ne (xs : List α) (i j : Nat) (a d : α) (h : i ≠ j) :
    (xs.set i a).getD j d = xs.getD j d := by
  simp [List.getD, List.getElem?_set_ne h]

/-- Reading a just-written in-range position after a set: the new value. -/
theorem getD_set_self (xs : List α) (i : Nat) (a d : α) (h : i < xs.length) :
    (xs.set i a).getD i d = a := by
  simp [List.getD, List.getElem?_set_eq_of_lt a h]

/-- The reordering loop never changes the lengths of the output arrays. -/
theorem orderLoop_lengths (jm : List (String × Nat)) (input : JointStateMsg) :
    ∀ (is : List Nat) (out : JointStateMsg),
      (orderLoop jm input is out).2.name.length = out.name.length ∧
      (orderLoop jm input is out).2.position.length = out.position.length ∧
      (orderLoop jm input is out).2.velocity.length = out.velocity.length ∧
      (orderLoop jm input is out).2.effort.length = out.effort.length := by
  intro is
  induction is with
  | nil =>
    intro out
    exact ⟨rfl, rfl, rfl, rfl⟩
  | cons i rest ih =>
    intro out
    simp only [orderLoop]
    cases hl : lookupIdx jm (input.name.getD i "") with
    | none => exact ⟨rfl, rfl, rfl, rfl⟩
    | some idx =>
      dsimp only
      refine ⟨?_, ?_, ?_, ?_⟩
      · rw [(ih _).1, List.length_set]
      · rw [(ih _).2.1, List.length_set]
      · rw [(ih _).2.2.1, List.length_set]
      · rw [(ih _).2.2.2, List.length_set]

/-- The reordering loop succeeds exactly when every remaining input name is
found in the joint map. -/
theorem orderLoop_true_iff (jm : List (String × Nat)) (input : JointStateMsg) :
    ∀ (is : List Nat) (out : JointStateMsg),
      ((orderLoop jm input is out).1 = true
        ↔ ∀ i ∈ is, (lookupIdx jm (input.name.getD i "")).isSome = true) := by
  intro is
  induction is with
  | nil =>
    intro out
    simp [orderLoop]
  | cons i rest ih =>
    intro out
    simp only [orderLoop]
    cases hl : lookupIdx jm (input.name.getD i "") with
    | none =>
      dsimp only
      constructor
      · intro h
        exact Bool.noConfusion h
      · intro h
        have hi := h i (List.mem_cons_self i rest)
        rw [hl] at hi
        exact Bool.noConfusion hi
    | some idx =>
      dsimp only
      rw [ih]
      constructor
      · intro h j hj
        rcases List.mem_cons.mp hj with hji | hjr
        · subst hji
          rw [hl]
          rfl
        · exact h j hjr
      · intro h j hj
        exact h j (List.mem_cons.mpr (Or.inr hj))

/-- Slots the remaining iterations never map to are left untouched by the
reordering loop. -/
theorem orderLoop_preserve (jm : List (String × Nat)) (input : JointStateMsg) :
    ∀ (is : List Nat) (out : JointStateMsg) (p : Nat),
      (∀ i ∈ is, ∀ idx, lookupIdx jm (input.name.getD i "") = some idx → idx ≠ p) →
      ((orderLoop jm input is out).2.name.getD p "" = out.name.getD p "" ∧
       (orderLoop jm input is out).2.position.getD p 0 = out.position.getD p 0 ∧
       (orderLoop jm input is out).2.velocity.getD p 0 = out.velocity.getD p 0 ∧
       (orderLoop jm input is out).2.effort.getD p 0 = out.effort.getD p 0) := by
  intro is
  induction is with
  | nil =>
    intro out p _
    exact ⟨rfl, rfl, rfl, rfl⟩
  | cons i rest ih =>
    intro out p hp
    simp only [orderLoop]
    cases hl : lookupIdx jm (input.name.getD i "") with
    | none => exact ⟨rfl, rfl, rfl, rfl⟩
    | some idx =>
      dsimp only
      have hne : idx ≠ p := hp i (List.mem_cons_self i rest) idx hl
      have hrest : ∀ j ∈ rest, ∀ idxj,
          lookupIdx jm (input.name.getD j "") = some idxj → idxj ≠ p :=
        fun j hj => hp j (List.mem_cons.mpr (Or.inr hj))
      obtain ⟨h1, h2, h3, h4⟩ := ih
        { name := out.name.set idx (input.name.getD i "")
          position := out.position.set idx (input.position.getD i 0)
          velocity := out.velocity.set idx (input.velocity.getD i 0)
          effort := out.effort.set idx (input.effort.getD i 0) } p hrest
      rw [h1, h2, h3, h4]
      exact ⟨getD_set_ne _ _ _ _ _ hne, getD_set_ne _ _ _ _ _ hne,
             getD_set_ne _ _ _ _ _ hne, getD_set_ne _ _ _ _ _ hne⟩

/-- In a successful reordering pass over distinct indices with pairwise
distinct names, the data of each input joint ends up at the slot its name maps
to. -/
theorem orderLoop_writes (s : String) (arm : Bool) (input : JointStateMsg) :
    ∀ (is : List Nat) (out : JointStateMsg),
      is.Nodup →
      (∀ i ∈ is, ∀ j ∈ is, input.name.getD i "" = input.name.getD j "" → i = j) →
      ∀ i ∈ is, ∀ idx,
        lookupIdx (get_namespaced_joint_map s arm) (input.name.getD i "") = some idx →
        idx < out.name.length → idx < out.position.length →
        idx < out.velocity.length → idx < out.effort.length →
        (orderLoop (get_namespaced_joint_map s arm) input is out).1 = true →
        ((orderLoop (get_namespaced_joint_map s arm) input is out).2.name.getD idx ""
            = input.name.getD i "" ∧
         (orderLoop (get_namespaced_joint_map s arm) input is out).2.position.getD idx 0
            = input.position.getD i 0 ∧
         (orderLoop (get_namespaced_joint_map s arm) input is out).2.velocity.getD idx 0
            = input.velocity.getD i 0 ∧
         (orderLoop (get_namespaced_joint_map s arm) input is out).2.effort.getD idx 0
            = input.effort.getD i 0) := by
  intro is
  induction is with
  | nil =>
    intro out _ _ i hi
    cases hi
  | cons a rest ih =>
    intro out hnd hdist i hi idx hidx hn hp hv he hsucc
    obtain ⟨hanotin, hndrest⟩ := List.nodup_cons.mp hnd
    simp only [orderLoop] at hsucc ⊢
    cases hl : lookupIdx (get_namespaced_joint_map s arm) (input.name.getD a "") with
    | none =>
      rw [hl] at hsucc
      exact Bool.noConfusion hsucc
    | some idxa =>
      rw [hl] at hsucc
      dsimp only at hsucc ⊢
      rcases List.mem_cons.mp hi with hia | hir
      · subst hia
        have hidxa : idxa = idx := by
          rw [hidx] at hl
          exact (Option.some.inj hl).symm
        subst hidxa
        have hpres := orderLoop_preserve (get_namespaced_joint_map s arm) input rest
          { name := out.name.set idxa (input.name.getD i "")
            position := out.position.set idxa (input.position.getD i 0)
            velocity := out.velocity.set idxa (input.velocity.getD i 0)
            effort := out.effort.set idxa (input.effort.getD i 0) } idxa
          (by
            intro j hj idxj hlj hje
            subst hje
            have hnames : input.name.getD j "" = input.name.getD i "" :=
              lookupIdx_inj s arm _ _ idxj hlj hidx
            have hji : j = i :=
              hdist j (List.mem_cons.mpr (Or.inr hj)) i (List.mem_cons_self i rest) hnames
            exact hanotin (hji ▸ hj))
        rw [hpres.1, hpres.2.1, hpres.2.2.1, hpres.2.2.2]
        exact ⟨getD_set_self _ _ _ _ hn, getD_set_self _ _ _ _ hp,
               getD_set_self _ _ _ _ hv, getD_set_self _ _ _ _ he⟩
      · exact ih
          { name := out.name.set idxa (input.name.getD a "")
            position := out.position.set idxa (input.position.getD a 0)
            velocity := out.velocity.set idxa (input.velocity.getD a 0)
            effort := out.effort.set idxa (input.effort.getD a 0) }
          hndrest
          (fun x hx y hy => hdist x (List.mem_cons.mpr (Or.inr hx))
            y (List.mem_cons.mpr (Or.inr hy)))
          i hir idx hidx
          (by rw [List.length_set]; exact hn)
          (by rw [List.length_set]; exact hp)
          (by rw [List.length_set]; exact hv)
          (by rw [List.length_set]; exact he)
          hsucc

/-- C10 (amended): with input arrays at least as long as the position
array, order_joint_states returns true iff the joint count is exactly 19
(arm) or 12 (no arm) and every input joint name occurs in the namespaced
joint map; on success all four output arrays have that length, and — when
the input joint names are pairwise distinct — the data of each input joint sits
at the index its name maps to.  On failure the output may be partially
overwritten (the function is not atomic). -/
theorem order_joint_states_correct (spot_name : String) (input output : JointStateMsg)
    (hname : input.position.length ≤ input.name.length)
    (hvel : input.position.length ≤ input.velocity.length)
    (heff : input.position.length ≤ input.effort.length) :
    ((order_joint_states spot_name input output).1 = true ↔
      ((input.position.length = kNjointsArm ∨ input.position.length = kNjointsNoArm) ∧
       ∀ i < input.position.length,
         (lookupIdx (get_namespaced_joint_map spot_name (input.position.length == kNjointsArm))
            (input.name.getD i "")).isSome = true)) ∧
    ((order_joint_states spot_name input output).1 = true →
      ((order_joint_states spot_name input output).2.name.length = input.position.length ∧
       (order_joint_states spot_name input output).2.position.length = input.position.length ∧
       (order_joint_states spot_name input output).2.velocity.length = input.position.length ∧
       (order_joint_states spot_name input output).2.effort.length = input.position.length)) ∧
    ((order_joint_states spot_name input output).1 = true →
      (∀ i < input.position.length, ∀ j < input.position.length,
         input.name.getD i "" = input.name.getD j "" → i = j) →
      ∀ i < input.position.length, ∃ idx,
        lookupIdx (get_namespaced_joint_map spot_name (input.position.length == kNjointsArm))
            (input.name.getD i "") = some idx ∧
        (order_joint_states spot_name input output).2.name.getD idx "" = input.name.getD i "" ∧
        (order_joint_states spot_name input output).2.position.getD idx 0
            = input.position.getD i 0 ∧
        (order_joint_states spot_name input output).2.velocity.getD idx 0
            = input.velocity.getD i 0 ∧
        (order_joint_states spot_name input output).2.effort.getD idx 0
            = input.effort.getD i 0) := by
  by_cases hn : (input.position.length ≠ kNjointsArm ∧ input.position.length ≠ kNjointsNoArm)
  · have hord : order_joint_states spot_name input output = (false, output) := by
      simp only [order_joint_states]
      rw [if_pos hn]
    refine ⟨?_, ?_, ?_⟩
    · rw [hord]
      constructor
      · intro h
        exact Bool.noConfusion h
      · rintro ⟨hcount, -⟩
        rcases hcount with h19 | h12
        · exact absurd h19 hn.1
        · exact absurd h12 hn.2
    · intro hsucc
      rw [hord] at hsucc
      exact Bool.noConfusion hsucc
    · intro hsucc
      rw [hord] at hsucc
      exact Bool.noConfusion hsucc
  · have hcnt : input.position.length = kNjointsArm ∨ input.position.length = kNjointsNoArm := by
      rcases not_and_or.mp hn with h | h
      · exact Or.inl (not_not.mp h)
      · exact Or.inr (not_not.mp h)
    have hord : order_joint_states spot_name input output
        = orderLoop (get_namespaced_joint_map spot_name (input.position.length == kNjointsArm))
            input (List.range input.position.length)
            { name := resizeList output.name input.position.length ""
              position := resizeList output.position input.position.length 0
              velocity := resizeList output.velocity input.position.length 0
              effort := resizeList output.effort input.position.length 0 } := by
      simp only [order_joint_states]
      rw [if_neg hn]
    refine ⟨?_, ?_, ?_⟩
    · rw [hord, orderLoop_true_iff]
      constructor
      · intro h
        exact ⟨hcnt, fun i hi => h i (List.mem_range.mpr hi)⟩
      · rintro ⟨-, h⟩ i hi
        exact h i (List.mem_range.mp hi)
    · intro hsucc
      rw [hord]
      obtain ⟨l1, l2, l3, l4⟩ := orderLoop_lengths
        (get_namespaced_joint_map spot_name (input.position.length == kNjointsArm)) input
        (List.range input.position.length)
        { name := resizeList output.name input.position.length ""
          position := resizeList output.position input.position.length 0
          velocity := resizeList output.velocity input.position.length 0
          effort := resizeList output.effort input.position.length 0 }
      rw [l1, l2, l3, l4]
      exact ⟨resizeList_length _ _ _, resizeList_length _ _ _,
             resizeList_length _ _ _, resizeList_length _ _ _⟩
    · intro hsucc hdist i hi
      rw [hord] at hsucc
      have hsome := (orderLoop_true_iff _ input _ _).mp hsucc i (List.mem_range.mpr hi)
      obtain ⟨idx, hidx⟩ := Option.isSome_iff_exists.mp hsome
      have hlt := lookupIdx_lt spot_name (input.position.length == kNjointsArm) _ idx hidx
      have hltn : idx < input.position.length := by
        rcases hcnt with h19 | h12
        · rw [h19]
          rw [h19] at hlt
          simpa [kNjointsArm, kNjointsNoArm] using hlt
        · rw [h12]
          rw [h12] at hlt
          simpa [kNjointsArm, kNjointsNoArm] using hlt
      have hw := orderLoop_writes spot_name (input.position.length == kNjointsArm) input
        (List.range input.position.length)
        { name := resizeList output.name input.position.length ""
          position := resizeList output.position input.position.length 0
          velocity := resizeList output.velocity input.position.length 0
          effort := resizeList output.effort input.position.length 0 }
        (List.nodup_range _)
        (fun x hx y hy => hdist x (List.mem_range.mp hx) y (List.mem_range.mp hy))
        i (List.mem_range.mpr hi) idx hidx
        (by rw [resizeList_length]; exact hltn)
        (by rw [resizeList_length]; exact hltn)
        (by rw [resizeList_length]; exact hltn)
        (by rw [resizeList_length]; exact hltn)
        hsucc
      rw [hord]
      exact ⟨idx, hidx, hw⟩

/-- The per-joint clause of the original claim fails when two input joints
share a name: on a 12-joint input whose first two joints are both
"front_left_hip_x" (data 1 and 2), the call still returns true, the name
maps to index 0, but slot 0 holds datum 2 of the second joint, not
datum 1 of the first joint. -/
theorem order_joint_states_dup_refutation :
    dupJointInput.name.length = 12 ∧ dupJointInput.position.length = 12 ∧
    dupJointInput.velocity.length = 12 ∧ dupJointInput.effort.length = 12 ∧
    (order_joint_states "" dupJointInput emptyJointState).1 = true ∧
    lookupIdx (get_namespaced_joint_map "" (dupJointInput.position.length == kNjointsArm))
        (dupJointInput.name.getD 0 "") = some 0 ∧
    dupJointInput.position.getD 0 0 = 1 ∧
    (order_joint_states "" dupJointInput emptyJointState).2.position.getD 0 0 = 2 := by
  decide

/-- Witness for order_joint_states_correct: a shuffled 12-joint input with
distinct names succeeds and produces 12-entry outputs, with joint
"front_left_hip_x" (input slot 1, datum 22) placed at mapped index 0. -/
theorem order_joint_states_correct_witness :
    (order_joint_states "" goodJointInput emptyJointState).1 = true ∧
    (order_joint_states "" goodJointInput emptyJointState).2.position.length = 12 ∧
    (order_joint_states "" goodJointInput emptyJointState).2.position.getD 0 0 = 22 := by
  have h := order_joint_states_correct "" goodJointInput emptyJointState
    (by decide) (by decide) (by decide)
  have hsucc : (order_joint_states "" goodJointInput emptyJointState).1 = true :=
    h.1.mpr (by decide)
  obtain ⟨idx, hidx, -, hpos, -, -⟩ := h.2.2 hsucc (by decide) 1 (by decide)
  have hidx0 : idx = 0 := by
    have : lookupIdx (get_namespaced_joint_map ""
        (goodJointInput.position.length == kNjointsArm)) (goodJointInput.name.getD 1 "")
        = some 0 := by decide
    rw [this] at hidx
    exact (Option.some.inj hidx).symm
  subst hidx0
  exact ⟨hsucc, (h.2.1 hsucc).2.1, by rw [hpos]; rfl⟩

end SpotRos2
